import Mathlib

/-!
Shallow embedding of `orbi` (src/orbi.go), a single-file Go client that
publishes versions of a file as signed Nostr events to a set of relays and
keeps per-file chain pointers in a local `.orbi` directory.

Modelling conventions:
* Strings stay Lean `String`s; Go byte slices of text become `String`.
* The file system is a `LocalState`: a partial map from full paths to file
  contents plus a set of existing directories.  `ioutil.ReadFile` of a
  missing record is the `none` case; storage is assumed readable/writable
  (IO errors are out of the modelled scope).
* Signing is external (`ev.Sign`); the signature-derived event identifier is
  passed in as a parameter `evID`.  `nostr.Now()` becomes a `Nat` parameter.
* The concurrent relay fan-out of `publishFileNostr` (one goroutine per
  relay, mutex-guarded accumulation, `wg.Wait()`) is determinised: the
  per-relay outcome is an oracle `ok : String → Bool` and the accumulated
  `successfulRelays` list is `relays.filter ok`.  Only the set of successes
  is observable to the caller; list order stands in for the unspecified
  interleaving order.
* `log.Fatalf` is exit code 1; a normal `return` from `main` is exit code 0.
-/

/-- Go `unicode.IsSpace` on a single character, as used by
`strings.TrimSpace`: ASCII whitespace plus the Unicode space characters. -/
def isGoSpace (c : Char) : Bool :=
  c = ' ' || c = '\t' || c = '\n' || c = '\x0b' || c = '\x0c' || c = '\r' ||
  c = '\u0085' || c = ' ' || c = ' ' ||
  (0x2000 ≤ c.toNat && c.toNat ≤ 0x200A) ||
  c = ' ' || c = ' ' || c = ' ' || c = ' ' || c = '　'

/-- Trim of `strings.TrimSpace` on the character list of a string: drop
whitespace from the front and from the back. -/
def trimSpaceList (l : List Char) : List Char :=
  ((l.dropWhile isGoSpace).reverse.dropWhile isGoSpace).reverse

/-- Go `strings.TrimSpace`. -/
def goTrimSpace (s : String) : String :=
  ⟨trimSpaceList s.data⟩

/-- Go `path/filepath.Base` on the character list (Unix separator `/`):
empty path gives "."; trailing separators are stripped; the last element is
kept; an all-separator path gives "/". -/
def goBaseList (l : List Char) : List Char :=
  if l = [] then ['.']
  else
    let stripped := (l.reverse.dropWhile (fun c => c = '/')).reverse
    let lastElem := (stripped.reverse.takeWhile (fun c => ¬ (c = '/'))).reverse
    if lastElem = [] then ['/'] else lastElem

/-- Go `filepath.Base`. -/
def goBase (s : String) : String :=
  ⟨goBaseList s.data⟩

/-- The constant `localOrbiDirName` of orbi.go. -/
def localOrbiDirName : String := ".orbi"

/-- The constant `rootEventIDFileName` of orbi.go. -/
def rootEventIDFileName : String := "root_event_id"

/-- The constant `headFileName` of orbi.go. -/
def headFileName : String := "HEAD"

/-- The constant `eventKindFile` of orbi.go. -/
def eventKindFile : Nat := 4444

/-- Go `filepath.Join` of two already-clean nonempty components (the only
way the program uses it): concatenation with one separator. -/
def filepathJoin (a b : String) : String :=
  a ++ "/" ++ b

/-- The `safeBaseFilename` computed in `getLocalOrbiFileSpecificDirPath`:
the base filename with every path separator replaced by an underscore
(`strings.ReplaceAll` with a one-character pattern is a character map). -/
def safeBaseFilename (targetFilePath : String) : String :=
  ⟨(goBase targetFilePath).data.map (fun c => if c = '/' then '_' else c)⟩

/-- `getLocalOrbiFileSpecificDirPath`: `cwd/.orbi/<safe base filename>`.
The current working directory is passed explicitly. -/
def getLocalOrbiFileSpecificDirPath (cwd targetFilePath : String) : String :=
  filepathJoin (filepathJoin cwd localOrbiDirName) (safeBaseFilename targetFilePath)

/-- Full path of one per-file record (`root_event_id` or `HEAD`) inside the
tracking directory, as computed in `readEventIDFromFile` and
`writeEventIDToFile`. -/
def recordPath (cwd targetFilePath idFileName : String) : String :=
  filepathJoin (getLocalOrbiFileSpecificDirPath cwd targetFilePath) idFileName

/-- Local file-system state visible to orbi: file contents by full path and
the set of directories that exist. -/
structure LocalState where
  files : String → Option String
  dirs : String → Bool

/-- `readEventIDFromFile`: read the record, returning "" when the record
file does not exist, and the `strings.TrimSpace` of its contents when it
does. -/
def readEventIDFromFile (st : LocalState) (cwd targetFilePath idFileName : String) : String :=
  match st.files (recordPath cwd targetFilePath idFileName) with
  | none => ""
  | some content => goTrimSpace content

/-- `writeEventIDToFile`: ensure the per-file tracking directory exists
(`ensureLocalOrbiFileSpecificDir`, which `MkdirAll`s `cwd/.orbi/<safe>` and
its parent) and write the record as the identifier followed by a newline. -/
def writeEventIDToFile (st : LocalState) (cwd targetFilePath idFileName eventID : String) :
    LocalState :=
  { files := fun p =>
      if p = recordPath cwd targetFilePath idFileName then some (eventID ++ "\n")
      else st.files p
    dirs := fun d =>
      if d = filepathJoin cwd localOrbiDirName then true
      else if d = getLocalOrbiFileSpecificDirPath cwd targetFilePath then true
      else st.dirs d }

/-- A Nostr event as orbi builds it (signature and identifier live outside:
they are assigned by the external signer). -/
structure NostrEvent where
  pubKey : String
  createdAt : Nat
  kind : Nat
  tags : List (List String)
  content : String
deriving DecidableEq

/-- The event construction of `publishFileNostr` (orbi.go lines 155-174):
file tag always; when `rootEventIDHex` is nonempty an `e`-tag marked "root",
and additionally, when `directParentEventIDHex` is also nonempty, an
`e`-tag marked "reply"; when `commitMessage` is nonempty an `m`-tag. -/
def buildFileEvent (pk : String) (createdAt : Nat) (content fileName : String)
    (rootEventIDHex directParentEventIDHex commitMessage : String) : NostrEvent :=
  let tags : List (List String) := [["f", fileName]]
  let tags :=
    if rootEventIDHex ≠ "" then
      let tags := tags ++ [["e", rootEventIDHex, "", "root"]]
      if directParentEventIDHex ≠ "" then
        tags ++ [["e", directParentEventIDHex, "", "reply"]]
      else tags
    else tags
  let tags := if commitMessage ≠ "" then tags ++ [["m", commitMessage]] else tags
  { pubKey := pk, createdAt := createdAt, kind := eventKindFile, tags := tags,
    content := content }

/-- The relay fan-out and aggregation of `publishFileNostr` (orbi.go lines
182-211): one publish attempt per relay with outcome `ok`, the successful
relay URLs accumulated, failure iff the success count is zero, otherwise
the event identifier together with the successful relays. -/
def broadcast (evID : String) (relays : List String) (ok : String → Bool) :
    Except String (String × List String) :=
  let successfulRelays := relays.filter ok
  let successCount := successfulRelays.length
  if successCount = 0 then
    Except.error ("failed to publish event " ++ evID ++ " to any of the specified relays")
  else
    Except.ok (evID, successfulRelays)

/-- `publishFileNostr`: read the file content (passed in as `content`),
build the event from the base filename and the chain arguments, sign it
(external; `evID` is the resulting identifier), and broadcast it.  Returns
the built event together with the aggregate broadcast outcome. -/
def publishFileNostr (content pk : String) (now : Nat) (evID : String)
    (filePath : String) (relays : List String) (ok : String → Bool)
    (rootEventIDHex directParentEventIDHex commitMessage : String) :
    NostrEvent × Except String (String × List String) :=
  let ev := buildFileEvent pk now content (goBase filePath)
    rootEventIDHex directParentEventIDHex commitMessage
  (ev, broadcast evID relays ok)

/-- The world a single orbi command runs against: the local `.orbi` state,
the content of the target file, and the per-relay publish outcome. -/
structure World where
  localState : LocalState
  fileContent : String
  relayOk : String → Bool

/-- Observable outcome of one command run: how many relay publish attempts
were launched, which event (if any) was built, signed and broadcast, the
process exit code, and the final local state. -/
structure RunLog where
  relayAttempts : Nat
  builtEvent : Option NostrEvent
  exitCode : Nat
  finalState : LocalState

/-- The `publish` branch of `main` (orbi.go lines 301-328): if the stored
root identifier is nonempty, print an informational message and return
normally without touching the network; otherwise build and broadcast a
first-version event with no chain tags and no message, and on success write
the new event identifier as the root record. -/
def runPublish (w : World) (cwd targetFilePath pk : String) (now : Nat) (evID : String)
    (relays : List String) : RunLog :=
  let existingRootID := readEventIDFromFile w.localState cwd targetFilePath rootEventIDFileName
  if existingRootID ≠ "" then
    { relayAttempts := 0, builtEvent := none, exitCode := 0, finalState := w.localState }
  else
    let r := publishFileNostr w.fileContent pk now evID targetFilePath relays w.relayOk "" "" ""
    { relayAttempts := relays.length, builtEvent := some r.1,
      exitCode := match r.2 with | Except.ok _ => 0 | Except.error _ => 1,
      finalState :=
        match r.2 with
        | Except.error _ => w.localState
        | Except.ok res =>
            writeEventIDToFile w.localState cwd targetFilePath rootEventIDFileName res.1 }

/-- The `commit` branch of `main` (orbi.go lines 330-367): fatal when the
stored root identifier is empty; otherwise the parent-to-reply-to is the
root itself (the explicit HEAD record is read for display only), and a new
version event is built with chain root and parent both the stored root and
broadcast.  No local record is written in either outcome. -/
def runCommit (w : World) (cwd targetFilePath pk : String) (now : Nat) (evID : String)
    (relays : List String) (commitMessage : String) : RunLog :=
  let rootEventID := readEventIDFromFile w.localState cwd targetFilePath rootEventIDFileName
  if rootEventID = "" then
    { relayAttempts := 0, builtEvent := none, exitCode := 1, finalState := w.localState }
  else
    let parentEventIDToReply := rootEventID
    let r := publishFileNostr w.fileContent pk now evID targetFilePath relays w.relayOk
      rootEventID parentEventIDToReply commitMessage
    { relayAttempts := relays.length, builtEvent := some r.1,
      exitCode := match r.2 with | Except.ok _ => 0 | Except.error _ => 1,
      finalState := w.localState }

/-- The command dispatch of `main` (orbi.go lines 295-300 and 300-371): the
`-m` flag is forwarded as the commit message only for the `commit` command;
`publish` always passes an empty message.  Unknown commands give `none`. -/
def runMain (w : World) (cwd targetFilePath pk : String) (now : Nat) (evID : String)
    (relays : List String) (command messageFlag : String) : Option RunLog :=
  let currentCommitMessage := if command = "commit" then messageFlag else ""
  if command = "publish" then
    some (runPublish w cwd targetFilePath pk now evID relays)
  else if command = "commit" then
    some (runCommit w cwd targetFilePath pk now evID relays currentCommitMessage)
  else
    none

/-- A string whose character list has no leading and no trailing Go
whitespace is recovered exactly by `strings.TrimSpace` after a single
newline is appended. -/
theorem trimSpaceList_append_newline (l : List Char)
    (h1 : l.dropWhile isGoSpace = l)
    (h2 : l.reverse.dropWhile isGoSpace = l.reverse) :
    trimSpaceList (l ++ ['\n']) = l := by
  rcases l with _ | ⟨c, t⟩
  · decide
  · unfold trimSpaceList
    rw [List.dropWhile_append, h1]
    simp only [List.isEmpty_cons, Bool.false_eq_true, if_false]
    rw [List.reverse_append]
    simp only [List.reverse_cons, List.reverse_nil, List.nil_append, List.singleton_append]
    rw [List.dropWhile_cons]
    have hsp : isGoSpace '\n' = true := rfl
    rw [hsp, if_pos rfl, ← List.reverse_cons, h2, List.reverse_reverse]

/-- C8: writing an event identifier record stores it as the identifier
followed by a newline, and reading the same record back returns exactly the
original identifier whenever it has no leading or trailing whitespace. -/
theorem writeEventID_readEventID_roundTrip (st : LocalState)
    (cwd targetFilePath idFileName eventID : String)
    (h1 : eventID.data.dropWhile isGoSpace = eventID.data)
    (h2 : eventID.data.reverse.dropWhile isGoSpace = eventID.data.reverse) :
    (writeEventIDToFile st cwd targetFilePath idFileName eventID).files
        (recordPath cwd targetFilePath idFileName) = some (eventID ++ "\n")
    ∧ readEventIDFromFile (writeEventIDToFile st cwd targetFilePath idFileName eventID)
        cwd targetFilePath idFileName = eventID := by
  have hfile : (writeEventIDToFile st cwd targetFilePath idFileName eventID).files
      (recordPath cwd targetFilePath idFileName) = some (eventID ++ "\n") := by
    simp [writeEventIDToFile]
  refine ⟨hfile, ?_⟩
  simp only [readEventIDFromFile, hfile]
  unfold goTrimSpace
  have hd : (eventID ++ "\n").data = eventID.data ++ ['\n'] := by
    rw [String.data_append]
  rw [hd, trimSpaceList_append_newline eventID.data h1 h2]

/-- C8 witness at a concrete identifier. -/
theorem writeEventID_readEventID_roundTrip_witness :
    "abc123".data.dropWhile isGoSpace = "abc123".data
    ∧ "abc123".data.reverse.dropWhile isGoSpace = "abc123".data.reverse
    ∧ ((writeEventIDToFile { files := fun _ => none, dirs := fun _ => false }
          "/cwd" "notes.md" "root_event_id" "abc123").files
        (recordPath "/cwd" "notes.md" "root_event_id") = some ("abc123" ++ "\n")
      ∧ readEventIDFromFile (writeEventIDToFile { files := fun _ => none, dirs := fun _ => false }
          "/cwd" "notes.md" "root_event_id" "abc123") "/cwd" "notes.md" "root_event_id"
          = "abc123") :=
  ⟨by decide, by decide,
    writeEventID_readEventID_roundTrip { files := fun _ => none, dirs := fun _ => false }
      "/cwd" "notes.md" "root_event_id" "abc123" (by decide) (by decide)⟩

/-- C9: the local record resolution depends only on the base filename of
the target path: two paths with the same basename resolve to the same
tracking directory, read the same records and write the same records. -/
theorem trackedFile_identity_basename (st : LocalState)
    (cwd idFileName eventID p1 p2 : String)
    (h : goBase p1 = goBase p2) :
    getLocalOrbiFileSpecificDirPath cwd p1 = getLocalOrbiFileSpecificDirPath cwd p2
    ∧ readEventIDFromFile st cwd p1 idFileName = readEventIDFromFile st cwd p2 idFileName
    ∧ writeEventIDToFile st cwd p1 idFileName eventID
        = writeEventIDToFile st cwd p2 idFileName eventID := by
  have hdir : getLocalOrbiFileSpecificDirPath cwd p1 = getLocalOrbiFileSpecificDirPath cwd p2 := by
    simp [getLocalOrbiFileSpecificDirPath, safeBaseFilename, h]
  refine ⟨hdir, ?_, ?_⟩
  · simp only [readEventIDFromFile, recordPath, hdir]
  · simp only [writeEventIDToFile, recordPath, hdir]

/-- C9 witness at two concrete paths sharing a basename. -/
theorem trackedFile_identity_basename_witness :
    goBase "docs/notes.md" = goBase "backup/old/notes.md"
    ∧ (getLocalOrbiFileSpecificDirPath "/cwd" "docs/notes.md"
          = getLocalOrbiFileSpecificDirPath "/cwd" "backup/old/notes.md"
      ∧ readEventIDFromFile { files := fun _ => none, dirs := fun _ => false }
            "/cwd" "docs/notes.md" "HEAD"
          = readEventIDFromFile { files := fun _ => none, dirs := fun _ => false }
            "/cwd" "backup/old/notes.md" "HEAD"
      ∧ writeEventIDToFile { files := fun _ => none, dirs := fun _ => false }
            "/cwd" "docs/notes.md" "HEAD" "id1"
          = writeEventIDToFile { files := fun _ => none, dirs := fun _ => false }
            "/cwd" "backup/old/notes.md" "HEAD" "id1") :=
  ⟨by decide,
    trackedFile_identity_basename { files := fun _ => none, dirs := fun _ => false }
      "/cwd" "HEAD" "id1" "docs/notes.md" "backup/old/notes.md" (by decide)⟩

/-- C1: for a nonempty relay list, the broadcast aggregation succeeds
exactly when at least one relay's publish attempt succeeded, returning the
event identifier together with exactly the succeeding relays, and yields
the aggregate "no relay accepted" failure exactly when none succeeded. -/
theorem broadcast_success_iff (evID : String) (relays : List String) (ok : String → Bool)
    (_hne : relays ≠ []) :
    ((∃ r ∈ relays, ok r = true) ↔
        broadcast evID relays ok = Except.ok (evID, relays.filter ok))
    ∧ ((∀ r ∈ relays, ok r = false) ↔
        broadcast evID relays ok =
          Except.error ("failed to publish event " ++ evID ++ " to any of the specified relays"))
    ∧ (∀ r, r ∈ relays.filter ok ↔ r ∈ relays ∧ ok r = true) := by
  by_cases hf : relays.filter ok = []
  · have hall : ∀ r ∈ relays, ok r = false := by
      intro r hr
      have := (List.filter_eq_nil_iff.mp hf) r hr
      simpa using this
    have hb : broadcast evID relays ok =
        Except.error ("failed to publish event " ++ evID ++ " to any of the specified relays") := by
      simp [broadcast, hf]
    refine ⟨?_, ?_, fun r => List.mem_filter⟩
    · constructor
      · rintro ⟨r, hr, hok⟩
        rw [hall r hr] at hok
        cases hok
      · intro hcontr
        rw [hb] at hcontr
        cases hcontr
    · exact ⟨fun _ => hb, fun _ => hall⟩
  · have hb : broadcast evID relays ok = Except.ok (evID, relays.filter ok) := by
      simp [broadcast, List.length_eq_zero, hf]
    obtain ⟨r0, hr0⟩ := List.exists_mem_of_ne_nil (relays.filter ok) hf
    have hmem := List.mem_filter.mp hr0
    refine ⟨?_, ?_, fun r => List.mem_filter⟩
    · exact ⟨fun _ => hb, fun _ => ⟨r0, hmem.1, hmem.2⟩⟩
    · constructor
      · intro hall
        rw [hall r0 hmem.1] at hmem
        cases hmem.2
      · intro hcontr
        rw [hb] at hcontr
        cases hcontr

/-- C1 witness: two relays, of which exactly one accepts. -/
theorem broadcast_success_iff_witness :
    (["wss://a", "wss://b"] : List String) ≠ []
    ∧ (((∃ r ∈ ["wss://a", "wss://b"], (fun u => u == "wss://b") r = true) ↔
          broadcast "ev1" ["wss://a", "wss://b"] (fun u => u == "wss://b")
            = Except.ok ("ev1", ["wss://a", "wss://b"].filter (fun u => u == "wss://b")))
      ∧ ((∀ r ∈ ["wss://a", "wss://b"], (fun u => u == "wss://b") r = false) ↔
          broadcast "ev1" ["wss://a", "wss://b"] (fun u => u == "wss://b")
            = Except.error
                ("failed to publish event " ++ "ev1" ++ " to any of the specified relays"))
      ∧ (∀ r, r ∈ ["wss://a", "wss://b"].filter (fun u => u == "wss://b") ↔
          r ∈ ["wss://a", "wss://b"] ∧ (fun u => u == "wss://b") r = true)) :=
  ⟨by decide,
    broadcast_success_iff "ev1" ["wss://a", "wss://b"] (fun u => u == "wss://b") (by decide)⟩

/-- An empty local state: no records, no directories. -/
def emptyLocalState : LocalState :=
  { files := fun _ => none, dirs := fun _ => false }

/-- A world with no local records, whose relays all reject. -/
def wNone : World :=
  { localState := emptyLocalState, fileContent := "hello", relayOk := fun _ => false }

/-- A local state in which every record file holds the identifier "abcd"
followed by a newline. -/
def stRooted : LocalState :=
  { files := fun _ => some "abcd\n", dirs := fun _ => true }

/-- A world whose root record reads "abcd" and whose relays all accept. -/
def wRooted : World :=
  { localState := stRooted, fileContent := "hello", relayOk := fun _ => true }

/-- C5 counterexample: with a root identifier supplied but an empty parent
identifier, the built event carries the chain-root tag but no chain-parent
tag at all, so the two chain tags are not added as a pair merely because a
root identifier is supplied. -/
theorem buildFileEvent_missing_reply_cex :
    (buildFileEvent "pk" 0 "content" "f.txt" "abcd" "" "").tags
        = [["f", "f.txt"], ["e", "abcd", "", "root"]]
    ∧ ¬ (∃ x, ["e", x, "", "reply"]
          ∈ (buildFileEvent "pk" 0 "content" "f.txt" "abcd" "" "").tags) := by
  refine ⟨rfl, ?_⟩
  rintro ⟨x, hx⟩
  simp +decide [buildFileEvent] at hx

/-- C5 (amended): the file tag is always present; the chain-root tag is
present iff a root identifier is supplied; the chain-parent tag is present
iff a root identifier and a parent identifier are both supplied; the
message tag is present iff the message is nonempty; in particular a first
publish (empty root, empty message) carries exactly the file tag. -/
theorem buildFileEvent_tag_presence (pk : String) (now : Nat)
    (content fileName root parent msg : String) :
    ["f", fileName] ∈ (buildFileEvent pk now content fileName root parent msg).tags
    ∧ ((∃ x, ["e", x, "", "root"]
          ∈ (buildFileEvent pk now content fileName root parent msg).tags) ↔ root ≠ "")
    ∧ ((∃ x, ["e", x, "", "reply"]
          ∈ (buildFileEvent pk now content fileName root parent msg).tags)
        ↔ (root ≠ "" ∧ parent ≠ ""))
    ∧ ((∃ x, ["m", x]
          ∈ (buildFileEvent pk now content fileName root parent msg).tags) ↔ msg ≠ "")
    ∧ (root = "" ∧ msg = "" →
        (buildFileEvent pk now content fileName root parent msg).tags = [["f", fileName]]) := by
  by_cases hr : root = "" <;> by_cases hp : parent = "" <;> by_cases hm : msg = "" <;>
    simp +decide [buildFileEvent, hr, hp, hm]

/-- C2: a commit against a nonempty stored root builds an event whose
chain-root tag and chain-parent tag both carry the stored root identifier,
for every local state (in particular whatever the explicit HEAD record
holds) and however many commits preceded it. -/
theorem commit_chain_tags_flat (w : World) (cwd targetFilePath pk : String) (now : Nat)
    (evID : String) (relays : List String) (msg r : String)
    (hroot : readEventIDFromFile w.localState cwd targetFilePath rootEventIDFileName = r)
    (hr : r ≠ "") :
    (runCommit w cwd targetFilePath pk now evID relays msg).builtEvent
      = some (buildFileEvent pk now w.fileContent (goBase targetFilePath) r r msg)
    ∧ ["e", r, "", "root"]
        ∈ (buildFileEvent pk now w.fileContent (goBase targetFilePath) r r msg).tags
    ∧ ["e", r, "", "reply"]
        ∈ (buildFileEvent pk now w.fileContent (goBase targetFilePath) r r msg).tags := by
  refine ⟨?_, ?_, ?_⟩
  · simp [runCommit, hroot, hr, publishFileNostr]
  · by_cases hm : msg = "" <;> simp [buildFileEvent, hr, hm]
  · by_cases hm : msg = "" <;> simp [buildFileEvent, hr, hm]

/-- C2 witness: a commit in a world whose stored root is "abcd", with an
explicit HEAD record also present. -/
theorem commit_chain_tags_flat_witness :
    readEventIDFromFile wRooted.localState "/cwd" "a/notes.md" rootEventIDFileName = "abcd"
    ∧ ("abcd" : String) ≠ ""
    ∧ ((runCommit wRooted "/cwd" "a/notes.md" "pk" 7 "ev1" ["wss://a"] "fix typo").builtEvent
        = some (buildFileEvent "pk" 7 wRooted.fileContent (goBase "a/notes.md")
            "abcd" "abcd" "fix typo")
      ∧ ["e", "abcd", "", "root"]
          ∈ (buildFileEvent "pk" 7 wRooted.fileContent (goBase "a/notes.md")
              "abcd" "abcd" "fix typo").tags
      ∧ ["e", "abcd", "", "reply"]
          ∈ (buildFileEvent "pk" 7 wRooted.fileContent (goBase "a/notes.md")
              "abcd" "abcd" "fix typo").tags) :=
  ⟨by decide, by decide,
    commit_chain_tags_flat wRooted "/cwd" "a/notes.md" "pk" 7 "ev1" ["wss://a"] "fix typo" "abcd"
      (by decide) (by decide)⟩

/-- C3 counterexample: with a nonempty stored root, `publish` is refused
with no relay attempt and no event built, but the process returns normally
with exit code 0 rather than terminating with a fatal non-zero exit. -/
theorem publish_existing_root_not_fatal_cex :
    (runPublish wRooted "/cwd" "notes.md" "pk" 0 "ev1" ["wss://a"]).relayAttempts = 0
    ∧ (runPublish wRooted "/cwd" "notes.md" "pk" 0 "ev1" ["wss://a"]).builtEvent = none
    ∧ (runPublish wRooted "/cwd" "notes.md" "pk" 0 "ev1" ["wss://a"]).exitCode = 0 :=
  ⟨by decide, by decide, by decide⟩

/-- C3 (amended): `publish` on a file whose stored root is nonempty is
refused before any network activity — no relay attempt and no event built —
and the command prints an informational message and returns normally with
exit code 0, leaving the local state unchanged. -/
theorem publish_existing_root_refused (w : World) (cwd targetFilePath pk : String)
    (now : Nat) (evID : String) (relays : List String)
    (hroot : readEventIDFromFile w.localState cwd targetFilePath rootEventIDFileName ≠ "") :
    runPublish w cwd targetFilePath pk now evID relays =
      { relayAttempts := 0, builtEvent := none, exitCode := 0, finalState := w.localState } := by
  simp [runPublish, hroot]

/-- C3 (amended) witness. -/
theorem publish_existing_root_refused_witness :
    readEventIDFromFile wRooted.localState "/cwd" "notes.md" rootEventIDFileName ≠ ""
    ∧ runPublish wRooted "/cwd" "notes.md" "pk" 0 "ev1" ["wss://a"] =
        { relayAttempts := 0, builtEvent := none, exitCode := 0,
          finalState := wRooted.localState } :=
  ⟨by decide,
    publish_existing_root_refused wRooted "/cwd" "notes.md" "pk" 0 "ev1" ["wss://a"] (by decide)⟩

/-- C4: `commit` on a file whose stored root is empty or absent is refused
as fatal (exit code 1) with no relay attempt and no event built, signed or
broadcast, and the local state is unchanged. -/
theorem commit_unpublished_refused (w : World) (cwd targetFilePath pk : String)
    (now : Nat) (evID : String) (relays : List String) (msg : String)
    (hroot : readEventIDFromFile w.localState cwd targetFilePath rootEventIDFileName = "") :
    runCommit w cwd targetFilePath pk now evID relays msg =
      { relayAttempts := 0, builtEvent := none, exitCode := 1, finalState := w.localState } := by
  simp [runCommit, hroot]

/-- C4 witness. -/
theorem commit_unpublished_refused_witness :
    readEventIDFromFile wNone.localState "/cwd" "notes.md" rootEventIDFileName = ""
    ∧ runCommit wNone "/cwd" "notes.md" "pk" 0 "ev1" ["wss://a"] "msg" =
        { relayAttempts := 0, builtEvent := none, exitCode := 1,
          finalState := wNone.localState } :=
  ⟨by decide,
    commit_unpublished_refused wNone "/cwd" "notes.md" "pk" 0 "ev1" ["wss://a"] "msg" (by decide)⟩

/-- C6: when a first publish's broadcast fails on every relay, the run is
fatal and writes no local state: the whole local state — in particular the
root record and the per-file tracking directory — is exactly as before. -/
theorem publish_broadcast_failure_no_state (w : World) (cwd targetFilePath pk : String)
    (now : Nat) (evID : String) (relays : List String)
    (hroot : readEventIDFromFile w.localState cwd targetFilePath rootEventIDFileName = "")
    (hfail : relays.filter w.relayOk = []) :
    (runPublish w cwd targetFilePath pk now evID relays).finalState = w.localState
    ∧ (runPublish w cwd targetFilePath pk now evID relays).finalState.files
        (recordPath cwd targetFilePath rootEventIDFileName)
        = w.localState.files (recordPath cwd targetFilePath rootEventIDFileName)
    ∧ (runPublish w cwd targetFilePath pk now evID relays).finalState.dirs
        (getLocalOrbiFileSpecificDirPath cwd targetFilePath)
        = w.localState.dirs (getLocalOrbiFileSpecificDirPath cwd targetFilePath)
    ∧ (runPublish w cwd targetFilePath pk now evID relays).exitCode = 1 := by
  have hrun : runPublish w cwd targetFilePath pk now evID relays =
      { relayAttempts := relays.length,
        builtEvent := some (buildFileEvent pk now w.fileContent (goBase targetFilePath) "" "" ""),
        exitCode := 1, finalState := w.localState } := by
    simp [runPublish, hroot, publishFileNostr, broadcast, List.length_eq_zero, hfail]
  rw [hrun]
  exact ⟨rfl, rfl, rfl, rfl⟩

/-- C6 witness: one relay that rejects. -/
theorem publish_broadcast_failure_no_state_witness :
    readEventIDFromFile wNone.localState "/cwd" "notes.md" rootEventIDFileName = ""
    ∧ ["wss://a"].filter wNone.relayOk = []
    ∧ ((runPublish wNone "/cwd" "notes.md" "pk" 0 "ev1" ["wss://a"]).finalState
          = wNone.localState
      ∧ (runPublish wNone "/cwd" "notes.md" "pk" 0 "ev1" ["wss://a"]).finalState.files
          (recordPath "/cwd" "notes.md" rootEventIDFileName)
          = wNone.localState.files (recordPath "/cwd" "notes.md" rootEventIDFileName)
      ∧ (runPublish wNone "/cwd" "notes.md" "pk" 0 "ev1" ["wss://a"]).finalState.dirs
          (getLocalOrbiFileSpecificDirPath "/cwd" "notes.md")
          = wNone.localState.dirs (getLocalOrbiFileSpecificDirPath "/cwd" "notes.md")
      ∧ (runPublish wNone "/cwd" "notes.md" "pk" 0 "ev1" ["wss://a"]).exitCode = 1) :=
  ⟨by decide, by decide,
    publish_broadcast_failure_no_state wNone "/cwd" "notes.md" "pk" 0 "ev1" ["wss://a"]
      (by decide) (by decide)⟩

/-- C7: a commit against a nonempty stored root leaves the entire local
state unchanged, whatever the broadcast outcome; in particular the root
record and the HEAD record hold exactly their previous contents. -/
theorem commit_preserves_pointers (w : World) (cwd targetFilePath pk : String)
    (now : Nat) (evID : String) (relays : List String) (msg : String)
    (hroot : readEventIDFromFile w.localState cwd targetFilePath rootEventIDFileName ≠ "") :
    (runCommit w cwd targetFilePath pk now evID relays msg).finalState = w.localState
    ∧ (runCommit w cwd targetFilePath pk now evID relays msg).finalState.files
        (recordPath cwd targetFilePath rootEventIDFileName)
        = w.localState.files (recordPath cwd targetFilePath rootEventIDFileName)
    ∧ (runCommit w cwd targetFilePath pk now evID relays msg).finalState.files
        (recordPath cwd targetFilePath headFileName)
        = w.localState.files (recordPath cwd targetFilePath headFileName) := by
  have hfs : (runCommit w cwd targetFilePath pk now evID relays msg).finalState
      = w.localState := by
    simp [runCommit, hroot]
  exact ⟨hfs, by rw [hfs], by rw [hfs]⟩

/-- C7 witness. -/
theorem commit_preserves_pointers_witness :
    readEventIDFromFile wRooted.localState "/cwd" "notes.md" rootEventIDFileName ≠ ""
    ∧ ((runCommit wRooted "/cwd" "notes.md" "pk" 0 "ev1" ["wss://a"] "msg").finalState
          = wRooted.localState
      ∧ (runCommit wRooted "/cwd" "notes.md" "pk" 0 "ev1" ["wss://a"] "msg").finalState.files
          (recordPath "/cwd" "notes.md" rootEventIDFileName)
          = wRooted.localState.files (recordPath "/cwd" "notes.md" rootEventIDFileName)
      ∧ (runCommit wRooted "/cwd" "notes.md" "pk" 0 "ev1" ["wss://a"] "msg").finalState.files
          (recordPath "/cwd" "notes.md" headFileName)
          = wRooted.localState.files (recordPath "/cwd" "notes.md" headFileName)) :=
  ⟨by decide,
    commit_preserves_pointers wRooted "/cwd" "notes.md" "pk" 0 "ev1" ["wss://a"] "msg"
      (by decide)⟩

/-- C10: the `publish` command forwards an empty commit message whatever
the `-m` flag holds: the run is identical to a run with an empty flag, and
the built first-version event's tag set is exactly the single file tag. -/
theorem publish_ignores_message_flag (w : World) (cwd targetFilePath pk : String)
    (now : Nat) (evID : String) (relays : List String) (msgFlag : String)
    (hroot : readEventIDFromFile w.localState cwd targetFilePath rootEventIDFileName = "") :
    runMain w cwd targetFilePath pk now evID relays "publish" msgFlag
      = runMain w cwd targetFilePath pk now evID relays "publish" ""
    ∧ (∃ res, runMain w cwd targetFilePath pk now evID relays "publish" msgFlag = some res
        ∧ res.builtEvent
            = some (buildFileEvent pk now w.fileContent (goBase targetFilePath) "" "" ""))
    ∧ (buildFileEvent pk now w.fileContent (goBase targetFilePath) "" "" "").tags
        = [["f", goBase targetFilePath]] := by
  refine ⟨rfl, ?_, by simp [buildFileEvent]⟩
  refine ⟨runPublish w cwd targetFilePath pk now evID relays, by simp +decide [runMain], ?_⟩
  simp [runPublish, hroot, publishFileNostr]

/-- C10 witness: publish with a nonempty `-m` flag. -/
theorem publish_ignores_message_flag_witness :
    readEventIDFromFile wNone.localState "/cwd" "notes.md" rootEventIDFileName = ""
    ∧ (runMain wNone "/cwd" "notes.md" "pk" 0 "ev1" ["wss://a"] "publish" "a message"
        = runMain wNone "/cwd" "notes.md" "pk" 0 "ev1" ["wss://a"] "publish" ""
      ∧ (∃ res, runMain wNone "/cwd" "notes.md" "pk" 0 "ev1" ["wss://a"] "publish" "a message"
            = some res
          ∧ res.builtEvent
              = some (buildFileEvent "pk" 0 wNone.fileContent (goBase "notes.md") "" "" ""))
      ∧ (buildFileEvent "pk" 0 wNone.fileContent (goBase "notes.md") "" "" "").tags
          = [["f", goBase "notes.md"]]) :=
  ⟨by decide,
    publish_ignores_message_flag wNone "/cwd" "notes.md" "pk" 0 "ev1" ["wss://a"] "a message"
      (by decide)⟩
